import Mathlib

/-!
Shallow embedding of the go-i18n style internationalization library.

The repository has two layers:
* `src/pkg/i18n/i18n.go` — the translation-string store (`SetLocale`,
  `AddTranslation`, `NewMessage`, `Message.String`) over process-wide
  mutable state, embedded here as explicit state passing over `I18nState`.
* the `language` package (CLDR plural rules: the built-in language table,
  `lookup` with fallback-by-truncation, `Register`,
  `Language.PluralCategory`), whose source is embedded in the repository's
  workflow file; it is translated here verbatim.
* the `plural` package (`plural.NewOperands`, the operand extractor) is not
  in the sources; it is modelled from the specification (§4.1).

Machine integers are embedded as `Nat` (all operand values are derived from
digit strings and are non-negative; none of the claims concern `int64`
overflow), and the operand `n` as `Rat` (the spec demands exact decimal
semantics).
-/

/-- Plural category, from the `plural` package referenced by the `language`
package source (`plural.Category` with constants `Invalid`, `Zero`, `One`,
`Two`, `Few`, `Many`, `Other`). -/
inductive Category where
  | invalid
  | zero
  | one
  | two
  | few
  | many
  | other
deriving DecidableEq, Repr

/-- The six CLDR plural operands (spec §3): `n` absolute value, `i` integer
digits, `v`/`w` visible fraction digit counts with/without trailing zeros,
`f`/`t` fraction digit values with/without trailing zeros. -/
structure Operands where
  n : Rat
  i : Nat
  v : Nat
  w : Nat
  f : Nat
  t : Nat
deriving DecidableEq, Repr

/-- Classification errors (spec §7): `InvalidNumber` for malformed numeric
input; `NotFound` is represented as an absent `Option` result by `lookup`
and is listed here for the taxonomy. -/
inductive I18nError where
  | invalidNumber
  | notFound
deriving DecidableEq, Repr

/-- Numeric input (spec §6): a tagged union over integers and decimal
strings. The spec also mentions binary floating input but flags it as
representation-lossy best effort (§9); no claim concerns it, so the float
tag is omitted from the embedding. -/
inductive NumericInput where
  | int (z : Int)
  | str (s : String)
deriving DecidableEq, Repr

/-- Numeric value of a decimal digit character. -/
def digitVal (c : Char) : Nat := c.toNat - '0'.toNat

/-- Value of a digit string read in base 10 (0 when empty). -/
def digitsToNat (cs : List Char) : Nat := cs.foldl (fun a c => 10 * a + digitVal c) 0

/-- Drop one leading sign character (spec §4.1 step 1: the decimal
representation is sign-stripped). -/
def stripSign : List Char → List Char
  | '+' :: cs => cs
  | '-' :: cs => cs
  | cs => cs

/-- Split a numeric literal at the exponent marker `e`/`E`, if any. -/
def splitExponent (cs : List Char) : List Char × Option (List Char) :=
  match cs.span (fun c => !(c == 'e' || c == 'E')) with
  | (mant, []) => (mant, none)
  | (mant, _ :: rest) => (mant, some rest)

/-- Parse an exponent body: an optional sign followed by at least one
digit; anything else is malformed. -/
def parseExp (cs : List Char) : Option Int :=
  match cs with
  | '+' :: ds => if ds ≠ [] ∧ ds.all Char.isDigit then some ((digitsToNat ds : Nat) : Int) else none
  | '-' :: ds => if ds ≠ [] ∧ ds.all Char.isDigit then some (-((digitsToNat ds : Nat) : Int)) else none
  | ds => if ds ≠ [] ∧ ds.all Char.isDigit then some ((digitsToNat ds : Nat) : Int) else none

/-- Split a mantissa into integer-digit and fraction-digit strings at the
decimal point; a second decimal point is malformed (spec §4.1: "multiple
decimal points" is an `InvalidNumber` case). -/
def splitFraction (cs : List Char) : Option (List Char × List Char) :=
  match cs.span (fun c => !(c == '.')) with
  | (ip, []) => some (ip, [])
  | (ip, _ :: rest) => if rest.any (fun c => c == '.') then none else some (ip, rest)

/-- Expand exponential notation to positional decimal form (spec §4.1
step 1: digit counting happens on the displayed decimal form). -/
def applyExponent (ip fp : List Char) (e : Int) : List Char × List Char :=
  if 0 ≤ e then
    let k := e.toNat
    (ip ++ fp.take k ++ List.replicate (k - fp.length) '0', fp.drop k)
  else
    let k := (-e).toNat
    (ip.take (ip.length - k),
     List.replicate (k - ip.length) '0' ++ ip.drop (ip.length - k) ++ fp)

/-- Operand set of a sign-stripped positional decimal form given as an
integer-digit string and a fraction-digit string (spec §4.1 steps 2–7). -/
def operandsOfDigits (ip fp : List Char) : Operands :=
  let fstripped := (fp.reverse.dropWhile (fun c => c == '0')).reverse
  { n := (digitsToNat ip : Rat) + (digitsToNat fp : Rat) / ((10 : Rat) ^ fp.length)
  , i := digitsToNat ip
  , v := fp.length
  , w := fstripped.length
  , f := digitsToNat fp
  , t := digitsToNat fstripped }

/-- Modelled from the spec: the `plural` package's operand extraction for a
decimal string is not under `src/`; spec §4.1 prescribes: normalize to a
sign-stripped integer-digit string and fraction-digit string, expand
exponential notation to positional form, then derive `i`, `v`, `w`, `f`,
`t`, `n`; malformed input (non-numeric characters, multiple decimal
points, no digits at all / empty string) fails with `InvalidNumber`. -/
def parseDecimalOperands (cs : List Char) : Except I18nError Operands :=
  let body := stripSign cs
  let (mant, expPart) := splitExponent body
  let eVal : Option Int :=
    match expPart with
    | none => some 0
    | some ec => parseExp ec
  match eVal with
  | none => .error .invalidNumber
  | some e =>
    match splitFraction mant with
    | none => .error .invalidNumber
    | some (ip, fp) =>
      if (ip ++ fp).isEmpty || !(ip.all Char.isDigit) || !(fp.all Char.isDigit) then
        .error .invalidNumber
      else
        let (ip2, fp2) := applyExponent ip fp e
        .ok (operandsOfDigits ip2 fp2)

/-- Modelled from the spec: `plural.NewOperands` is not under `src/`.
Spec §4.1: a plain integer input always yields `v = w = f = t = 0`
regardless of magnitude, with `i` the (sign-stripped) integer value; a
decimal string goes through normalization and digit counting. -/
def NewOperands : NumericInput → Except I18nError Operands
  | .int z => .ok { n := ((z.natAbs : Nat) : Rat), i := z.natAbs, v := 0, w := 0, f := 0, t := 0 }
  | .str s => parseDecimalOperands s.toList

deriving instance DecidableEq for Except

namespace GoI18n

/-! ## The `language` package

Translated from the `language` package source embedded in the repository
(`Language`, the built-in `languages` table, `lookup`, `Register`,
`Language.PluralCategory`). Go `switch` statements and `&&`/`||` guards
are rendered as if-chains; the Go map `map[string]*Language` is rendered
as a function `String → Option Language` (unique keys, last write wins
under update). -/

/-- A written human language: RFC 5646 tag, display name, the set of
plural categories the language distinguishes, and its CLDR plural rule
function. -/
structure Language where
  ID : String
  Name : String
  PluralCategories : List Category
  PluralFunc : Operands → Category

/-- The registry type: Go's `map[string]*Language`. -/
abbrev Registry := String → Option Language

/-- Arabic (`ar`): zero/one/two/few/many/other, integer branches guarded
by `W == 0`, `few` for `I mod 100 ∈ [3,10]`, `many` for `I mod 100 ≥ 11`. -/
def arabic : Language :=
  { ID := "ar", Name := ""
  , PluralCategories := [.zero, .one, .two, .few, .many, .other]
  , PluralFunc := fun ops =>
      if ops.w = 0 then
        if ops.i = 0 then .zero
        else if ops.i = 1 then .one
        else if ops.i = 2 then .two
        else if 3 ≤ ops.i % 100 ∧ ops.i % 100 ≤ 10 then .few
        else if 11 ≤ ops.i % 100 then .many
        else .other
      else .other }

/-- Catalan (`ca`): `I == 1 && V == 0 → one`. -/
def catalan : Language :=
  { ID := "ca", Name := ""
  , PluralCategories := [.one, .other]
  , PluralFunc := fun ops => if ops.i = 1 ∧ ops.v = 0 then .one else .other }

/-- Chinese (`zh`): always `other`. -/
def chinese : Language :=
  { ID := "zh", Name := ""
  , PluralCategories := [.other]
  , PluralFunc := fun _ => .other }

/-- Czech (`cs`): one/few/many/other. -/
def czech : Language :=
  { ID := "cs", Name := ""
  , PluralCategories := [.one, .few, .many, .other]
  , PluralFunc := fun ops =>
      if ops.i = 1 ∧ ops.v = 0 then .one
      else if 2 ≤ ops.i ∧ ops.i ≤ 4 ∧ ops.v = 0 then .few
      else if 0 < ops.v then .many
      else .other }

/-- Danish (`da`): `I == 1 || (I == 0 && T != 0) → one`. -/
def danish : Language :=
  { ID := "da", Name := ""
  , PluralCategories := [.one, .other]
  , PluralFunc := fun ops =>
      if ops.i = 1 ∨ (ops.i = 0 ∧ ops.t ≠ 0) then .one else .other }

/-- Dutch (`nl`): `I == 1 && V == 0 → one`. -/
def dutch : Language :=
  { ID := "nl", Name := ""
  , PluralCategories := [.one, .other]
  , PluralFunc := fun ops => if ops.i = 1 ∧ ops.v = 0 then .one else .other }

/-- English (`en`): `I == 1 && V == 0 → one`. -/
def english : Language :=
  { ID := "en", Name := ""
  , PluralCategories := [.one, .other]
  , PluralFunc := fun ops => if ops.i = 1 ∧ ops.v = 0 then .one else .other }

/-- French (`fr`): `I == 0 || I == 1 → one`. -/
def french : Language :=
  { ID := "fr", Name := ""
  , PluralCategories := [.one, .other]
  , PluralFunc := fun ops => if ops.i = 0 ∨ ops.i = 1 then .one else .other }

/-- German (`de`): `I == 1 && V == 0 → one`. -/
def german : Language :=
  { ID := "de", Name := ""
  , PluralCategories := [.one, .other]
  , PluralFunc := fun ops => if ops.i = 1 ∧ ops.v = 0 then .one else .other }

/-- Italian (`it`): `I == 1 && V == 0 → one`. -/
def italian : Language :=
  { ID := "it", Name := ""
  , PluralCategories := [.one, .other]
  , PluralFunc := fun ops => if ops.i = 1 ∧ ops.v = 0 then .one else .other }

/-- Japanese (`ja`): always `other`. -/
def japanese : Language :=
  { ID := "ja", Name := ""
  , PluralCategories := [.other]
  , PluralFunc := fun _ => .other }

/-- Lithuanian (`lt`): fraction-sensitive (`F != 0 → many`), then branches
on `I mod 100` and `I mod 10`. -/
def lithuanian : Language :=
  { ID := "lt", Name := ""
  , PluralCategories := [.one, .few, .many, .other]
  , PluralFunc := fun ops =>
      if ops.f ≠ 0 then .many
      else if ops.i % 100 < 11 ∨ 19 < ops.i % 100 then
        if ops.i % 10 = 0 then .other
        else if ops.i % 10 = 1 then .one
        else .few
      else .other }

/-- European Portuguese (`pt`): `I == 1 && V == 0 → one`. -/
def portuguese : Language :=
  { ID := "pt", Name := ""
  , PluralCategories := [.one, .other]
  , PluralFunc := fun ops => if ops.i = 1 ∧ ops.v = 0 then .one else .other }

/-- Brazilian Portuguese (`pt-BR`): `(I == 1 && V == 0) || (I == 0 && T == 1) → one`. -/
def portugueseBrazilian : Language :=
  { ID := "pt-BR", Name := ""
  , PluralCategories := [.one, .other]
  , PluralFunc := fun ops =>
      if (ops.i = 1 ∧ ops.v = 0) ∨ (ops.i = 0 ∧ ops.t = 1) then .one else .other }

/-- Spanish (`es`): `I == 1 && W == 0 → one`. -/
def spanish : Language :=
  { ID := "es", Name := ""
  , PluralCategories := [.one, .other]
  , PluralFunc := fun ops => if ops.i = 1 ∧ ops.w = 0 then .one else .other }

/-- The built-in language table (Go's `languages` map literal; keys are
unique, so the if-chain order is immaterial). -/
def languages : Registry := fun id =>
  if id = "ar" then some arabic
  else if id = "ca" then some catalan
  else if id = "zh" then some chinese
  else if id = "cs" then some czech
  else if id = "da" then some danish
  else if id = "nl" then some dutch
  else if id = "en" then some english
  else if id = "fr" then some french
  else if id = "de" then some german
  else if id = "it" then some italian
  else if id = "ja" then some japanese
  else if id = "lt" then some lithuanian
  else if id = "pt" then some portuguese
  else if id = "pt-BR" then some portugueseBrazilian
  else if id = "es" then some spanish
  else none

/-- `Register` adds Language `l` to the collection of available languages
(`languages[l.ID] = l` — map insert, last write wins). -/
def Register (l : Language) (reg : Registry) : Registry :=
  fun k => if k = l.ID then some l else reg k

/-- `strings.TrimSpace` then `strings.Replace(id, "_", "-", -1)` as
performed at the top of Go `lookup`, on character lists. -/
def trimList (cs : List Char) : List Char :=
  ((cs.dropWhile Char.isWhitespace).reverse.dropWhile Char.isWhitespace).reverse

/-- Replace every underscore separator by a dash. -/
def underscoreToDash (cs : List Char) : List Char :=
  cs.map (fun c => if c = '_' then '-' else c)

/-- Normalization applied on entry to Go `lookup`: trim surrounding
whitespace, then normalize underscore separators to dashes. -/
def normalizeID (cs : List Char) : List Char := underscoreToDash (trimList cs)

/-- `strings.LastIndex(languageID, "-")`: `some` of the segment before the
last dash when a dash exists, `none` otherwise. -/
def splitLastDash (cs : List Char) : Option (List Char) :=
  match cs.reverse.dropWhile (fun c => !(c == '-')) with
  | [] => none
  | _ :: rest => some rest.reverse

theorem length_dropWhile_le_self (p : Char → Bool) :
    ∀ cs : List Char, (cs.dropWhile p).length ≤ cs.length
  | [] => le_refl _
  | c :: cs => by
    rw [List.dropWhile]
    cases p c
    · simp
    · simpa using le_trans (length_dropWhile_le_self p cs) (Nat.le_succ _)

theorem trimList_length_le (cs : List Char) : (trimList cs).length ≤ cs.length := by
  unfold trimList
  simp only [List.length_reverse]
  exact le_trans (length_dropWhile_le_self _ _)
    (by simpa using length_dropWhile_le_self Char.isWhitespace cs)

theorem normalizeID_length_le (cs : List Char) : (normalizeID cs).length ≤ cs.length := by
  unfold normalizeID underscoreToDash
  simpa using trimList_length_le cs

theorem splitLastDash_length_lt (cs pre : List Char)
    (h : splitLastDash cs = some pre) : pre.length < cs.length := by
  unfold splitLastDash at h
  rcases hd : cs.reverse.dropWhile (fun c => !(c == '-')) with _ | ⟨c, rest⟩
  · rw [hd] at h; exact absurd h (by simp)
  · rw [hd] at h
    have hpre : pre = rest.reverse := by
      injection h with h'; exact h'.symm
    have h1 : rest.length + 1 ≤ cs.length := by
      have h2 := length_dropWhile_le_self (fun c => !(c == '-')) cs.reverse
      rw [hd] at h2
      simpa using h2
    subst hpre
    simp only [List.length_reverse]
    omega

/-- Go `lookup` on character lists: normalize, try an exact registry hit,
otherwise recurse on the segment before the last dash; `none` when there
is no dash left. -/
def lookupList (reg : Registry) (languageID : List Char) : Option Language :=
  match reg (String.mk (normalizeID languageID)) with
  | some found => some found
  | none =>
    match h : splitLastDash (normalizeID languageID) with
    | some pre => lookupList reg pre
    | none => none
termination_by languageID.length
decreasing_by
  have h1 := splitLastDash_length_lt _ _ h
  have h2 := normalizeID_length_le languageID
  omega

/-- Go `lookup(languageID string) *Language`. -/
def lookup (reg : Registry) (languageID : String) : Option Language :=
  lookupList reg languageID.toList

/-- `Language.PluralCategory`: derive the operands, propagating the
extraction error, then apply the language's plural rule function. (Go
returns the pair `(plural.Invalid, err)` on failure; the error side is
what callers observe, embedded as `Except`.) -/
def Language.PluralCategory (l : Language) (number : NumericInput) : Except I18nError Category :=
  match NewOperands number with
  | .error e => .error e
  | .ok ops => .ok (l.PluralFunc ops)

/-! ## The `i18n` package (`src/pkg/i18n/i18n.go`)

The package's two global variables `currentLocale` and `translations`
become the explicit state `I18nState`. Go's nested map
`map[string]map[string]string` (with its `nil`-inner-map check in
`AddTranslation`) is embedded as a curried partial function; a `nil` inner
map and an empty inner map are observationally identical through this
package's operations, both yielding "not found" on every key. -/

/-- `const defaultLocale = ""`. -/
def defaultLocale : String := ""

/-- The package-level mutable state: `currentLocale` and `translations`. -/
structure I18nState where
  currentLocale : String
  translations : String → String → Option String

/-- The state at process start: `currentLocale = defaultLocale`,
`translations = make(map[string]map[string]string)` (empty). -/
def initialState : I18nState :=
  { currentLocale := defaultLocale, translations := fun _ _ => none }

/-- `SetLocale` sets the locale to use for translated messages. -/
def SetLocale (locale : String) (s : I18nState) : I18nState :=
  { s with currentLocale := locale }

/-- Modelled from the spec: the `msg` package (`msg.Id(context, content)`)
is not under `src/`; the spec and the package's own comments describe the
id only as a deterministic identifier derived from the context and the
content, so it is embedded as an (unspecified but fixed) injective-enough
pairing. No claim depends on its particular form. -/
def msgId (context content : String) : String :=
  context ++ "/" ++ content

/-- `AddTranslation` adds a translated string to the dictionary and
returns an id for the message: `translations[locale][id] = translation`. -/
def AddTranslation (locale context content translation : String)
    (s : I18nState) : String × I18nState :=
  let id := msgId context content
  (id, { s with translations := fun l k =>
      if l = locale ∧ k = id then some translation else s.translations l k })

/-- `Message` is a string that is translated into multiple languages. -/
structure Message where
  id : String
deriving DecidableEq, Repr

/-- `NewMessage` registers the content under the default locale (its own
content as the translation) and returns the `Message` with the id that
`AddTranslation` produced. -/
def NewMessage (content context : String) (s : I18nState) : Message × I18nState :=
  let r := AddTranslation defaultLocale context content content s
  (⟨r.1⟩, r.2)

/-- `Message.String`: look the id up under the current locale; when absent
(`found == false`), fall back to the default-locale entry, whose own
absence leaves Go's zero value `""`. -/
def Message.String (m : Message) (s : I18nState) : String :=
  match s.translations s.currentLocale m.id with
  | some t => t
  | none =>
    match s.translations defaultLocale m.id with
    | some t => t
    | none => ""

/-- Operations of the `i18n` package, for stating invariants over
operation sequences. `Message.String` only reads the two package
variables (its embedding `Message.String : Message → I18nState → String`
produces no state), so as a step it leaves the state unchanged. -/
inductive Op where
  | setLocale (locale : String)
  | addTranslation (locale context content translation : String)
  | newMessage (content context : String)
  | messageString (m : Message)

/-- The operations that write to the `translations` map: `AddTranslation`
and `NewMessage` (which calls `AddTranslation`). -/
def Op.isRegistration : Op → Bool
  | .addTranslation _ _ _ _ => true
  | .newMessage _ _ => true
  | _ => false

/-- Effect of one operation on the package state. -/
def applyOp : Op → I18nState → I18nState
  | .setLocale l, s => SetLocale l s
  | .addTranslation l c cc t, s => (AddTranslation l c cc t s).2
  | .newMessage c cc, s => (NewMessage c cc s).2
  | .messageString _, s => s

/-- Effect of a sequence of operations on the package state. -/
def applyOps (ops : List Op) (s : I18nState) : I18nState :=
  ops.foldl (fun s op => applyOp op s) s

/-! ## Supporting lemmas -/

/-- One-step unfolding of `lookupList` (its recursion is well-founded, so
concrete runs are evaluated by rewriting with this equation). -/
theorem lookupList_unfold (reg : Registry) (cs : List Char) :
    lookupList reg cs =
      match reg (String.mk (normalizeID cs)) with
      | some found => some found
      | none =>
        match splitLastDash (normalizeID cs) with
        | some pre => lookupList reg pre
        | none => none := by
  rw [lookupList.eq_def]
  split
  · rfl
  · split <;> simp_all

theorem arabic_mem (ops : Operands) : arabic.PluralFunc ops ∈ arabic.PluralCategories := by
  simp only [arabic]; split_ifs <;> decide

theorem catalan_mem (ops : Operands) : catalan.PluralFunc ops ∈ catalan.PluralCategories := by
  simp only [catalan]; split_ifs <;> decide

theorem chinese_mem (ops : Operands) : chinese.PluralFunc ops ∈ chinese.PluralCategories := by
  simp only [chinese]; decide

theorem czech_mem (ops : Operands) : czech.PluralFunc ops ∈ czech.PluralCategories := by
  simp only [czech]; split_ifs <;> decide

theorem danish_mem (ops : Operands) : danish.PluralFunc ops ∈ danish.PluralCategories := by
  simp only [danish]; split_ifs <;> decide

theorem dutch_mem (ops : Operands) : dutch.PluralFunc ops ∈ dutch.PluralCategories := by
  simp only [dutch]; split_ifs <;> decide

theorem english_mem (ops : Operands) : english.PluralFunc ops ∈ english.PluralCategories := by
  simp only [english]; split_ifs <;> decide

theorem french_mem (ops : Operands) : french.PluralFunc ops ∈ french.PluralCategories := by
  simp only [french]; split_ifs <;> decide

theorem german_mem (ops : Operands) : german.PluralFunc ops ∈ german.PluralCategories := by
  simp only [german]; split_ifs <;> decide

theorem italian_mem (ops : Operands) : italian.PluralFunc ops ∈ italian.PluralCategories := by
  simp only [italian]; split_ifs <;> decide

theorem japanese_mem (ops : Operands) : japanese.PluralFunc ops ∈ japanese.PluralCategories := by
  simp only [japanese]; decide

theorem lithuanian_mem (ops : Operands) :
    lithuanian.PluralFunc ops ∈ lithuanian.PluralCategories := by
  simp only [lithuanian]; split_ifs <;> decide

theorem portuguese_mem (ops : Operands) :
    portuguese.PluralFunc ops ∈ portuguese.PluralCategories := by
  simp only [portuguese]; split_ifs <;> decide

theorem portugueseBrazilian_mem (ops : Operands) :
    portugueseBrazilian.PluralFunc ops ∈ portugueseBrazilian.PluralCategories := by
  simp only [portugueseBrazilian]; split_ifs <;> decide

theorem spanish_mem (ops : Operands) : spanish.PluralFunc ops ∈ spanish.PluralCategories := by
  simp only [spanish]; split_ifs <;> decide

/-- Every language in the built-in table has a rule function whose result
is always one of that language's declared plural categories. -/
theorem languages_pluralFunc_mem (id : String) (l : Language)
    (h : languages id = some l) (ops : Operands) :
    l.PluralFunc ops ∈ l.PluralCategories := by
  simp only [languages] at h
  by_cases hc0 : id = "ar"
  · rw [if_pos hc0] at h
    injection h with h2
    subst h2
    exact arabic_mem ops
  · rw [if_neg hc0] at h
    by_cases hc1 : id = "ca"
    · rw [if_pos hc1] at h
      injection h with h2
      subst h2
      exact catalan_mem ops
    · rw [if_neg hc1] at h
      by_cases hc2 : id = "zh"
      · rw [if_pos hc2] at h
        injection h with h2
        subst h2
        exact chinese_mem ops
      · rw [if_neg hc2] at h
        by_cases hc3 : id = "cs"
        · rw [if_pos hc3] at h
          injection h with h2
          subst h2
          exact czech_mem ops
        · rw [if_neg hc3] at h
          by_cases hc4 : id = "da"
          · rw [if_pos hc4] at h
            injection h with h2
            subst h2
            exact danish_mem ops
          · rw [if_neg hc4] at h
            by_cases hc5 : id = "nl"
            · rw [if_pos hc5] at h
              injection h with h2
              subst h2
              exact dutch_mem ops
            · rw [if_neg hc5] at h
              by_cases hc6 : id = "en"
              · rw [if_pos hc6] at h
                injection h with h2
                subst h2
                exact english_mem ops
              · rw [if_neg hc6] at h
                by_cases hc7 : id = "fr"
                · rw [if_pos hc7] at h
                  injection h with h2
                  subst h2
                  exact french_mem ops
                · rw [if_neg hc7] at h
                  by_cases hc8 : id = "de"
                  · rw [if_pos hc8] at h
                    injection h with h2
                    subst h2
                    exact german_mem ops
                  · rw [if_neg hc8] at h
                    by_cases hc9 : id = "it"
                    · rw [if_pos hc9] at h
                      injection h with h2
                      subst h2
                      exact italian_mem ops
                    · rw [if_neg hc9] at h
                      by_cases hc10 : id = "ja"
                      · rw [if_pos hc10] at h
                        injection h with h2
                        subst h2
                        exact japanese_mem ops
                      · rw [if_neg hc10] at h
                        by_cases hc11 : id = "lt"
                        · rw [if_pos hc11] at h
                          injection h with h2
                          subst h2
                          exact lithuanian_mem ops
                        · rw [if_neg hc11] at h
                          by_cases hc12 : id = "pt"
                          · rw [if_pos hc12] at h
                            injection h with h2
                            subst h2
                            exact portuguese_mem ops
                          · rw [if_neg hc12] at h
                            by_cases hc13 : id = "pt-BR"
                            · rw [if_pos hc13] at h
                              injection h with h2
                              subst h2
                              exact portugueseBrazilian_mem ops
                            · rw [if_neg hc13] at h
                              by_cases hc14 : id = "es"
                              · rw [if_pos hc14] at h
                                injection h with h2
                                subst h2
                                exact spanish_mem ops
                              · rw [if_neg hc14] at h
                                exact absurd h (by simp)

/-- Sequences of non-registration operations leave the `translations` map
unchanged. -/
theorem applyOps_no_registration (ops : List Op) (s : I18nState)
    (h : ∀ op ∈ ops, op.isRegistration = false) :
    (applyOps ops s).translations = s.translations := by
  induction ops generalizing s with
  | nil => rfl
  | cons op rest ih =>
    have hop : op.isRegistration = false := h op (by simp)
    have hrest : ∀ o ∈ rest, o.isRegistration = false := fun o ho => h o (by simp [ho])
    cases op with
    | setLocale l => exact ih (SetLocale l s) hrest
    | messageString m => exact ih s hrest
    | addTranslation a b c d => simp [Op.isRegistration] at hop
    | newMessage a b => simp [Op.isRegistration] at hop

/-! ## Claims -/

/-- Claim C1: registration is last-write-wins and idempotent overwrite:
re-registering the same (locale, context, content) with a new translation
yields exactly the state of a single registration of the new translation
(no residual effect from the old entry); registering the identical entry
twice has the same effect as registering it once; and a subsequent
`Message.String` under that locale observes the most recent translation. -/
theorem addTranslation_last_write_wins (s : I18nState)
    (locale context content t1 t2 : String) :
    ((AddTranslation locale context content t2
        (AddTranslation locale context content t1 s).2).2
      = (AddTranslation locale context content t2 s).2)
  ∧ ((AddTranslation locale context content t1
        (AddTranslation locale context content t1 s).2).2
      = (AddTranslation locale context content t1 s).2)
  ∧ (Message.String ⟨(AddTranslation locale context content t1 s).1⟩
        (SetLocale locale
          (AddTranslation locale context content t2
            (AddTranslation locale context content t1 s).2).2) = t2) := by
  refine ⟨?_, ?_, ?_⟩
  · simp only [AddTranslation]
    congr 1
    funext l k
    by_cases hx : l = locale ∧ k = msgId context content <;> simp [hx]
  · simp only [AddTranslation]
    congr 1
    funext l k
    by_cases hx : l = locale ∧ k = msgId context content <;> simp [hx]
  · simp [Message.String, SetLocale, AddTranslation]

/-- Claim C2 (counterexample): a state in which the current locale `"fr"`
has no translation for the message's id, yet `Message.String` still
returns the default-locale translation `"Hello"` — a silent substitution
of the default, with no failure signal, contrary to the claim. -/
theorem messageString_no_silent_fallback_cex :
    ((SetLocale "fr" (NewMessage "Hello" "ctx" initialState).2).translations
        (SetLocale "fr" (NewMessage "Hello" "ctx" initialState).2).currentLocale
        (NewMessage "Hello" "ctx" initialState).1.id = none)
  ∧ (Message.String (NewMessage "Hello" "ctx" initialState).1
        (SetLocale "fr" (NewMessage "Hello" "ctx" initialState).2) = "Hello")
  ∧ ((SetLocale "fr" (NewMessage "Hello" "ctx" initialState).2).translations
        defaultLocale (NewMessage "Hello" "ctx" initialState).1.id = some "Hello") := by
  refine ⟨by decide, by decide, by decide⟩

/-- Claim C2 (amended): when the current locale has no translation for the
message's id, `Message.String` silently falls back to the default-locale
translation, returning it (or the empty string when the default locale
also has none); no explicit failure signal is surfaced — the method
returns only a plain string. -/
theorem messageString_default_fallback (s : I18nState) (m : Message)
    (h : s.translations s.currentLocale m.id = none) :
    Message.String m s = (s.translations defaultLocale m.id).getD "" := by
  unfold Message.String
  rw [h]
  cases hd : s.translations defaultLocale m.id <;> simp

/-- Witness for the amended C2 at a concrete state. -/
theorem messageString_default_fallback_witness :
    Message.String (NewMessage "Hello" "ctx" initialState).1
        (SetLocale "fr" (NewMessage "Hello" "ctx" initialState).2)
      = ((SetLocale "fr" (NewMessage "Hello" "ctx" initialState).2).translations
          defaultLocale (NewMessage "Hello" "ctx" initialState).1.id).getD "" :=
  messageString_default_fallback _ _ (by decide)

/-- Claim C3: the process-wide `translations` registry has unique keys per
(locale, id) and is mutable only through registration: any sequence of
non-registration operations (`SetLocale`, `Message.String`) leaves the
mapping unchanged; `AddTranslation` performs exactly a single-key
functional update; and a second write to the same (locale, id) key wins. -/
theorem translations_mutated_only_by_registration
    (ops : List Op) (s : I18nState) (locale context content t1 t2 : String)
    (h : ∀ op ∈ ops, op.isRegistration = false) :
    ((applyOps ops s).translations = s.translations)
  ∧ (∀ l k, (AddTranslation locale context content t1 s).2.translations l k
      = if l = locale ∧ k = msgId context content then some t1 else s.translations l k)
  ∧ ((AddTranslation locale context content t2
        (AddTranslation locale context content t1 s).2).2.translations locale
      (msgId context content) = some t2) := by
  refine ⟨applyOps_no_registration ops s h, fun l k => rfl, by simp [AddTranslation]⟩

/-- Witness for C3: a `SetLocale` followed by a `Message.String` read
leaves the translations of the initial state unchanged. -/
theorem translations_mutated_only_by_registration_witness :
    (applyOps [Op.setLocale "fr", Op.messageString ⟨"k"⟩] initialState).translations
      = initialState.translations :=
  (translations_mutated_only_by_registration
    [Op.setLocale "fr", Op.messageString ⟨"k"⟩] initialState "" "" "" "" ""
    (by decide)).1

/-- Claim C4: language lookup falls back by truncation: an exact
(normalized) registry hit is returned as is; with no dash left a miss is
`none` (`NotFound` as an absent result); `"pt-BR-nonstandard"` resolves to
`pt-BR` in the built-in table, and to `pt` when `pt` is the only
registered ancestor; normalization trims whitespace and maps underscores
to dashes; and `"xx-yy-zz"` with no registered ancestor yields `none`. -/
theorem lookup_truncation_fallback
    (reg reg' : Registry) (id id' : String) (l : Language)
    (hhit : reg (String.mk (normalizeID id.toList)) = some l)
    (hmiss : reg' (String.mk (normalizeID id'.toList)) = none)
    (hnodash : splitLastDash (normalizeID id'.toList) = none) :
    (lookup reg id = some l)
  ∧ (lookup reg' id' = none)
  ∧ (lookup languages "pt-BR-nonstandard" = some portugueseBrazilian)
  ∧ (lookup (Register portuguese (fun _ => none)) "pt-BR-nonstandard" = some portuguese)
  ∧ (lookup languages " pt_BR " = some portugueseBrazilian)
  ∧ (lookup languages "xx-yy-zz" = none) := by
  refine ⟨?_, ?_, ?_, ?_, ?_, ?_⟩
  · unfold lookup
    rw [lookupList_unfold, hhit]
  · unfold lookup
    rw [lookupList_unfold, hmiss]
    simp only
    rw [hnodash]
  · unfold lookup
    rw [lookupList_unfold]
    rw [show languages (String.mk (normalizeID ("pt-BR-nonstandard".toList))) = none from rfl]
    simp only
    rw [show splitLastDash (normalizeID ("pt-BR-nonstandard".toList))
        = some ("pt-BR".toList) from by decide]
    simp only
    rw [lookupList_unfold]
    rw [show languages (String.mk (normalizeID ("pt-BR".toList)))
        = some portugueseBrazilian from rfl]
  · unfold lookup
    rw [lookupList_unfold]
    rw [show (Register portuguese (fun _ => none))
        (String.mk (normalizeID ("pt-BR-nonstandard".toList))) = none from rfl]
    simp only
    rw [show splitLastDash (normalizeID ("pt-BR-nonstandard".toList))
        = some ("pt-BR".toList) from by decide]
    simp only
    rw [lookupList_unfold]
    rw [show (Register portuguese (fun _ => none))
        (String.mk (normalizeID ("pt-BR".toList))) = none from rfl]
    simp only
    rw [show splitLastDash (normalizeID ("pt-BR".toList)) = some ("pt".toList) from by decide]
    simp only
    rw [lookupList_unfold]
    rw [show (Register portuguese (fun _ => none))
        (String.mk (normalizeID ("pt".toList))) = some portuguese from rfl]
  · unfold lookup
    rw [lookupList_unfold]
    rw [show languages (String.mk (normalizeID (" pt_BR ".toList)))
        = some portugueseBrazilian from rfl]
  · unfold lookup
    rw [lookupList_unfold]
    rw [show languages (String.mk (normalizeID ("xx-yy-zz".toList))) = none from rfl]
    simp only
    rw [show splitLastDash (normalizeID ("xx-yy-zz".toList))
        = some ("xx-yy".toList) from by decide]
    simp only
    rw [lookupList_unfold]
    rw [show languages (String.mk (normalizeID ("xx-yy".toList))) = none from rfl]
    simp only
    rw [show splitLastDash (normalizeID ("xx-yy".toList)) = some ("xx".toList) from by decide]
    simp only
    rw [lookupList_unfold]
    rw [show languages (String.mk (normalizeID ("xx".toList))) = none from rfl]
    simp only
    rw [show splitLastDash (normalizeID ("xx".toList)) = none from by decide]

/-- Witness for C4 at concrete inputs: an exact hit on `"en"` in the
built-in table, and a dash-free miss on `"zz"`. -/
theorem lookup_truncation_fallback_witness :
    (lookup languages "en" = some english) ∧ (lookup languages "zz" = none) :=
  ⟨(lookup_truncation_fallback languages languages "en" "zz" english
      rfl rfl (by decide)).1,
   (lookup_truncation_fallback languages languages "en" "zz" english
      rfl rfl (by decide)).2.1⟩

/-- Claim C5: rule evaluation is total (every rule function is a total
Lean function into `Category`) and closed over the declared categories:
for every built-in language the rule function's value on any operand set
is a member of that language's declared category set, and `classify`
(`Language.PluralCategory`), whenever it returns a category, returns a
member of the declared set — never an undeclared category. -/
theorem classify_closed_over_declared_categories :
    (∀ (id : String) (l : Language), languages id = some l →
      ∀ ops : Operands, l.PluralFunc ops ∈ l.PluralCategories)
  ∧ (∀ (id : String) (l : Language) (number : NumericInput) (c : Category),
      languages id = some l → l.PluralCategory number = .ok c →
      c ∈ l.PluralCategories) := by
  constructor
  · exact fun id l h ops => languages_pluralFunc_mem id l h ops
  · intro id l number c h hc
    unfold Language.PluralCategory at hc
    cases hops : NewOperands number with
    | error e =>
      simp only [hops] at hc
      exact absurd hc (by simp)
    | ok ops =>
      simp only [hops] at hc
      injection hc with hc2
      subst hc2
      exact languages_pluralFunc_mem id l h ops

/-- Witness for C5: English on the operand set of 1 and on the input 1. -/
theorem classify_closed_over_declared_categories_witness :
    (english.PluralFunc { n := 1, i := 1, v := 0, w := 0, f := 0, t := 0 }
      ∈ english.PluralCategories)
  ∧ Category.one ∈ english.PluralCategories :=
  ⟨(classify_closed_over_declared_categories).1 "en" english rfl _,
   (classify_closed_over_declared_categories).2 "en" english (.int 1) .one rfl (by decide)⟩

/-- Claim C6: operand extraction is trailing-zero sensitive on decimal
strings: `"2.50"` yields `v=2, w=1, f=50, t=5`; `"2.5"` yields
`v=1, w=1, f=5, t=5`; `"2"` yields `v=0, w=0, f=0, t=0`; and every integer
input (no fractional part) yields `v=w=f=t=0`. -/
theorem operands_trailing_zero_sensitivity :
    ((NewOperands (.str "2.50")).map (fun o => (o.v, o.w, o.f, o.t)) = .ok (2, 1, 50, 5))
  ∧ ((NewOperands (.str "2.5")).map (fun o => (o.v, o.w, o.f, o.t)) = .ok (1, 1, 5, 5))
  ∧ ((NewOperands (.str "2")).map (fun o => (o.v, o.w, o.f, o.t)) = .ok (0, 0, 0, 0))
  ∧ (∀ z : Int, (NewOperands (.int z)).map (fun o => (o.v, o.w, o.f, o.t)) = .ok (0, 0, 0, 0)) := by
  exact ⟨by decide, by decide, by decide, fun z => rfl⟩

/-- Claim C7: malformed numeric input is rejected with `InvalidNumber`:
`"12.3.4"` (multiple decimal points), the empty string, and a non-numeric
string all fail in operand extraction; any extraction failure propagates
through `classify` (`Language.PluralCategory`) unchanged, so classifying
`"12.3.4"` fails with `InvalidNumber` and never produces a category. -/
theorem malformed_input_rejected
    (l : Language) (t : String) (e : I18nError)
    (hbad : NewOperands (.str t) = .error e) :
    (NewOperands (.str "12.3.4") = .error .invalidNumber)
  ∧ (NewOperands (.str "") = .error .invalidNumber)
  ∧ (NewOperands (.str "abc") = .error .invalidNumber)
  ∧ (l.PluralCategory (.str t) = .error e)
  ∧ (english.PluralCategory (.str "12.3.4") = .error .invalidNumber) := by
  refine ⟨by decide, by decide, by decide, ?_, by decide⟩
  simp only [Language.PluralCategory, hbad]

/-- Witness for C7: German classification of `"12.3.4"` fails with
`InvalidNumber`. -/
theorem malformed_input_rejected_witness :
    german.PluralCategory (.str "12.3.4") = .error .invalidNumber :=
  (malformed_input_rejected german "12.3.4" .invalidNumber (by decide)).2.2.2.1

/-- Claim C8: operand derivation is representation-stable: the integer `1`
and the decimal string `"1"` yield identical operand sets, namely
`i=1, v=0, w=0, f=0, t=0` (and `n=1`). -/
theorem operands_representation_stable :
    (NewOperands (.int 1) = NewOperands (.str "1"))
  ∧ (NewOperands (.int 1) = .ok { n := 1, i := 1, v := 0, w := 0, f := 0, t := 0 }) := by
  have h1 : NewOperands (.str "1") = .ok (operandsOfDigits ['1'] []) := rfl
  have h2 : operandsOfDigits ['1'] []
      = { n := ((1 : Nat) : Rat), i := 1, v := 0, w := 0, f := 0, t := 0 } := by
    simp [operandsOfDigits, digitsToNat, digitVal]
  have h3 : NewOperands (.int 1)
      = .ok { n := ((1 : Nat) : Rat), i := 1, v := 0, w := 0, f := 0, t := 0 } := rfl
  constructor
  · rw [h1, h2, h3]
  · rw [h3]
    norm_num

/-- Claim C9: round-trip through `NewMessage`: the message returned by
`NewMessage content context` is registered under the default locale with
its own content as the translation, and whenever the current locale
(possibly changed by `SetLocale`) has no translation for the message's id,
`Message.String` returns the content unchanged. -/
theorem newMessage_roundtrip (s : I18nState) (content context loc : String)
    (h : (SetLocale loc (NewMessage content context s).2).translations
        (SetLocale loc (NewMessage content context s).2).currentLocale
        (NewMessage content context s).1.id = none) :
    ((NewMessage content context s).2.translations defaultLocale
        (NewMessage content context s).1.id = some content)
  ∧ (Message.String (NewMessage content context s).1
        (SetLocale loc (NewMessage content context s).2) = content) := by
  constructor
  · simp [NewMessage, AddTranslation]
  · simp only [Message.String, SetLocale] at h ⊢
    rw [h]
    simp [NewMessage, AddTranslation]

/-- Witness for C9: starting from a state whose current locale is `"de"`,
construct a message and switch to locale `"fr"`, which has no translation
for it; `Message.String` returns the original content. -/
theorem newMessage_roundtrip_witness :
    Message.String (NewMessage "Hello" "ctx" (SetLocale "de" initialState)).1
        (SetLocale "fr" (NewMessage "Hello" "ctx" (SetLocale "de" initialState)).2)
      = "Hello" :=
  (newMessage_roundtrip (SetLocale "de" initialState) "Hello" "ctx" "fr" (by decide)).2

/-- Claim C10: frame conditions: `SetLocale` leaves the whole translations
mapping unchanged; `AddTranslation` leaves the current locale unchanged,
writes exactly the returned id's entry under its locale, and leaves every
entry under every other (locale, id) pair unchanged. -/
theorem setLocale_addTranslation_frame (s : I18nState)
    (locale context content translation loc : String) :
    ((SetLocale loc s).translations = s.translations)
  ∧ ((AddTranslation locale context content translation s).2.currentLocale = s.currentLocale)
  ∧ ((AddTranslation locale context content translation s).2.translations locale
      (AddTranslation locale context content translation s).1 = some translation)
  ∧ (∀ l k, ¬(l = locale ∧ k = (AddTranslation locale context content translation s).1) →
      (AddTranslation locale context content translation s).2.translations l k
        = s.translations l k) := by
  refine ⟨rfl, rfl, by simp [AddTranslation], ?_⟩
  intro l k hk
  simp only [AddTranslation] at hk ⊢
  rw [if_neg hk]

/-- Witness for C10: adding a French translation does not disturb the
(empty) entry at (locale `"en"`, id `"x"`). -/
theorem setLocale_addTranslation_frame_witness :
    (AddTranslation "fr" "ctx" "Hello" "Bonjour" initialState).2.translations "en" "x"
      = initialState.translations "en" "x" :=
  (setLocale_addTranslation_frame initialState "fr" "ctx" "Hello" "Bonjour" "de").2.2.2
    "en" "x" (by decide)

end GoI18n
